import Mathlib

/-!
Shallow embedding of the scene-construction and simulation-loop layer
exercised by `src/demos/python/irrlicht/demo_IRR_assets.py` (Project Chrono
demo script).  The script sequences calls into the Chrono physics engine and
the Irrlicht render engine; the engine code itself is not under `src/`, so
operations whose semantics the spec assigns to this layer (addEntity, attach,
step, the error taxonomy) are modelled from the spec, while the demo script's
own structure (entities built, shapes attached, the simulation loop) is
translated from the source.  Scalars are ℚ; angles are recorded in degrees so
that the embedding stays computable; trigonometric engine math (rotation of a
vector by a matrix, the convex-hull body constructor, the random generator)
is abstracted as a parameter structure `ExternalMath`.
-/

/-- 3D vector with rational coordinates, modelling `chrono.ChVectorD`. -/
structure Vec3 where
  x : ℚ
  y : ℚ
  z : ℚ
deriving DecidableEq

def Vec3.add (a b : Vec3) : Vec3 := ⟨a.x + b.x, a.y + b.y, a.z + b.z⟩

/-- Rotation descriptor: the demo uses only the unit quaternion `QUNIT`,
`Q_from_AngX(CH_C_PI_2)` and `Q_from_AngY(j*21*CH_C_DEG_TO_RAD)`; angles are
recorded in degrees (90 for `CH_C_PI_2`) to stay rational. -/
inductive Rot
  | qunit
  | angX (deg : ℚ)
  | angY (deg : ℚ)
deriving DecidableEq

/-- A pose: position plus rotation, modelling `chrono.ChFrameD`. -/
structure Frame where
  pos : Vec3
  rot : Rot
deriving DecidableEq

def identFrame : Frame := ⟨⟨0, 0, 0⟩, Rot.qunit⟩

/-- RGB color, modelling `chrono.ChColor`. -/
structure ChColor where
  r : ℚ
  g : ℚ
  b : ℚ
deriving DecidableEq

/-- Visual material, modelling `chrono.ChVisualMaterial` with its diffuse
color (the only property the demo sets). -/
structure VisualMaterial where
  diffuse : ChColor
deriving DecidableEq

/-- Contact surface material, modelling `chrono.ChMaterialSurfaceNSC`
(the demo constructs it with default parameters; the marker field records
the NSC variant). -/
structure SurfaceMaterial where
  nsc : Bool
deriving DecidableEq

/-- Line geometry pieces used by `ChVisualShapePath`: segments and arcs
(`ChLineSegment`, `ChLineArc`); arc angles in degrees. -/
inductive LineGeom
  | segment (a b : Vec3)
  | arc (center : Vec3) (radius : ℚ) (angle1deg angle2deg : ℚ)
deriving DecidableEq

/-- NURBS line data: order plus control points (`ChLineNurbs.SetupData`). -/
structure NurbsLine where
  order : Nat
  controlPoints : List Vec3
deriving DecidableEq

/-- Closed tagged-variant geometric descriptor for visual shapes, as the
spec's design notes prescribe, covering exactly the kinds the demo attaches. -/
inductive ShapeGeom
  | box (hx hy hz : ℚ)
  | sphere (radius : ℚ)
  | cylinder (radius height : ℚ)
  | path (lines : List LineGeom)
  | line (geom : NurbsLine)
  | triangleMesh (tris : List (Vec3 × Vec3 × Vec3))
  | modelFile (filename texture : String)
deriving DecidableEq

/-- A visual shape descriptor: geometry plus optional color (`SetColor`)
and attached materials (`AddMaterial`). -/
structure VisualShape where
  geom : ShapeGeom
  color : Option ChColor
  materials : List VisualMaterial
deriving DecidableEq

/-- Collision shape: geometric primitive plus surface-material reference,
covering the kinds the demo creates (`ChCollisionShapeBox`,
`ChCollisionShapeSphere`). -/
inductive CollisionShape
  | box (mat : SurfaceMaterial) (hx hy hz : ℚ)
  | sphere (mat : SurfaceMaterial) (radius : ℚ)
deriving DecidableEq

/-- A rigid body, modelling `chrono.ChBody`: identifier, pose, fixed flag,
mass properties, collision data. -/
structure Body where
  id : Nat
  pose : Frame
  fixed : Bool
  mass : ℚ
  inertiaXX : Vec3
  collide : Bool
  collisionShapes : List (CollisionShape × Frame)
deriving DecidableEq

/-- A particle cluster, modelling `chrono.ChParticleCloud`: one shared
collision-shape template, one shared mass and inertia value, and a list of
member poses (members differ only by pose). -/
structure ParticleCloud where
  id : Nat
  collisionShape : Option CollisionShape
  collide : Bool
  mass : ℚ
  inertiaXX : Vec3
  particles : List Frame
deriving DecidableEq

/-- An entity is a rigid body or a particle cluster. -/
inductive Entity
  | body (b : Body)
  | cloud (c : ParticleCloud)
deriving DecidableEq

def entityId : Entity → Nat
  | Entity.body b => b.id
  | Entity.cloud c => c.id

/-- The fixed/movable flag of an entity (clusters are movable). -/
def entityFixed : Entity → Bool
  | Entity.body b => b.fixed
  | Entity.cloud _ => false

/-- The scene: the set of all entities, in insertion order. -/
structure Scene where
  entities : List Entity
deriving DecidableEq

/-- Error taxonomy of the orchestration layer, from the spec's error
handling design. -/
inductive SceneError
  | DuplicateIdError
  | NotFoundError
  | DanglingEntityError
  | InvalidTimestepError
deriving DecidableEq

def containsId (s : Scene) (i : Nat) : Bool :=
  s.entities.any (fun e => entityId e == i)

/-- Modelled from the spec: the Scene Graph Builder's `addEntity(entity)`
(the engine-side `ChSystem.Add` is not under `src/`): fails with
`DuplicateIdError` if the entity's identifier already exists in the scene,
otherwise inserts at the end (insertion order preserved). -/
def addEntity (s : Scene) (e : Entity) : Except SceneError Scene :=
  if containsId s (entityId e) then Except.error SceneError.DuplicateIdError
  else Except.ok ⟨s.entities ++ [e]⟩

/-- One attachment record of the Visual Attachment Registry: owning entity
id, shape descriptor, local transform. -/
structure Attachment where
  owner : Nat
  shape : VisualShape
  frame : Frame
deriving DecidableEq

/-- The Visual Attachment Registry: ordered list of attachments. -/
structure Registry where
  attachments : List Attachment
deriving DecidableEq

/-- Modelled from the spec: the registry's
`attach(entityRef, shapeDescriptor, localTransform)` (engine-side
`AddVisualShape` is not under `src/`): fails with `DanglingEntityError` if
the referenced entity is not currently in the scene, otherwise appends to
the ordered attachment list (rendering order is insertion order). -/
def attach (s : Scene) (r : Registry) (owner : Nat) (sh : VisualShape)
    (f : Frame) : Except SceneError Registry :=
  if containsId s owner then Except.ok ⟨r.attachments ++ [⟨owner, sh, f⟩]⟩
  else Except.error SceneError.DanglingEntityError

/-- The attachments of one owning entity, in registry iteration order. -/
def attachmentsOf (r : Registry) (i : Nat) : List (VisualShape × Frame) :=
  (r.attachments.filter (fun a => a.owner == i)).map (fun a => (a.shape, a.frame))

/-- Modelled from the spec: the external physics engine, kept opaque as a
pair of pose-advancing functions (a "healthy" engine is a total function);
the engine's internals are out of scope. -/
structure PhysicsEngine where
  advanceBody : ℚ → Frame → Frame
  advanceParticle : ℚ → Frame → Frame

/-- One physics tick applied to one entity: fixed bodies do not move;
movable bodies have their pose advanced; a particle cluster has each member
pose advanced (only poses mutate). -/
def stepEntity (eng : PhysicsEngine) (dt : ℚ) : Entity → Entity
  | Entity.body b =>
      if b.fixed then Entity.body b
      else Entity.body { b with pose := eng.advanceBody dt b.pose }
  | Entity.cloud c =>
      Entity.cloud { c with particles := c.particles.map (eng.advanceParticle dt) }

/-- One physics tick applied to the whole scene. -/
def stepScene (eng : PhysicsEngine) (dt : ℚ) (s : Scene) : Scene :=
  ⟨s.entities.map (stepEntity eng dt)⟩

/-- Modelled from the spec: the Simulation Driver's `step(dt)` (the
engine-side `DoStepDynamics` is not under `src/`): rejects non-positive `dt`
with `InvalidTimestepError`, otherwise advances every entity's pose by one
tick of size `dt`. -/
def step (eng : PhysicsEngine) (s : Scene) (dt : ℚ) : Except SceneError Scene :=
  if dt ≤ 0 then Except.error SceneError.InvalidTimestepError
  else Except.ok (stepScene eng dt s)

/-- A GUI rectangle, modelling `chronoirr.recti`. -/
structure Recti where
  x1 : Int
  y1 : Int
  x2 : Int
  y2 : Int
deriving DecidableEq

/-- A static text widget added by `addStaticText`. -/
structure Widget where
  text : String
  rect : Recti
deriving DecidableEq

/-- The widget the demo loop adds each frame:
`addStaticText('Hello World!', chronoirr.recti(50, 60, 150, 80))`. -/
def helloWidget : Widget := ⟨"Hello World!", ⟨50, 60, 150, 80⟩⟩

/-- Observable events of one run of the simulation loop: a render recording
the scene state it observes, and a physics step recording its timestep. -/
inductive Event
  | render (observed : Scene)
  | physicsStep (dt : ℚ)
deriving DecidableEq

def isRenderEv : Event → Bool
  | Event.render _ => true
  | Event.physicsStep _ => false

def isStepEv : Event → Bool
  | Event.render _ => false
  | Event.physicsStep _ => true

/-- State carried across loop iterations: the scene, the visual attachment
registry, the GUI widgets added so far, and the event trace. -/
structure LoopState where
  scene : Scene
  registry : Registry
  gui : List Widget
  events : List Event
deriving DecidableEq

/-- The fixed timestep the demo loop passes to `DoStepDynamics`: 0.01. -/
def demoDt : ℚ := 1 / 100

/-- One iteration of the demo's simulation loop, from the source:
`vis.BeginScene(); vis.Render()` (render the current state),
`vis.GetGUIEnvironment().addStaticText(...)` (add one static text widget),
`vis.EndScene()`, then `sys.DoStepDynamics(0.01)`. -/
def demoIteration (eng : PhysicsEngine) (st : LoopState) :
    Except SceneError LoopState := do
  let evs := st.events ++ [Event.render st.scene]
  let gui := st.gui ++ [helloWidget]
  let s ← step eng st.scene demoDt
  pure ⟨s, st.registry, gui, evs ++ [Event.physicsStep demoDt]⟩

/-- The demo's `while vis.Run():` loop, run for `n` iterations (the stop
condition is supplied externally by the viewer; `n` counts how many times
`vis.Run()` returns true before it first returns false). -/
def runLoop (eng : PhysicsEngine) : Nat → LoopState → Except SceneError LoopState
  | 0, st => Except.ok st
  | n + 1, st => do
      let st1 ← demoIteration eng st
      runLoop eng n st1

/-- Loop state at the start of the loop: no widgets added, no events yet. -/
def initState (s : Scene) (r : Registry) : LoopState := ⟨s, r, [], []⟩

/-- The scene after `k` completed physics steps of the loop. -/
def iterScene (eng : PhysicsEngine) : Nat → Scene → Scene
  | 0, s => s
  | k + 1, s => iterScene eng k (stepScene eng demoDt s)

/-- A trivial engine instance (identity advance), used to instantiate
engine-parametric theorems at a concrete input. -/
def trivEngine : PhysicsEngine := ⟨fun _ f => f, fun _ f => f⟩

theorem demoDt_pos : (0 : ℚ) < demoDt := by norm_num [demoDt]

/-- Full characterization of `n` iterations of the demo loop: it always
succeeds, the scene is stepped `n` times, one widget is added per iteration,
and the event trace alternates render-then-step, the `k`-th render observing
the scene after `k` completed steps. -/
theorem runLoop_eq (eng : PhysicsEngine) (n : Nat) (st : LoopState) :
    runLoop eng n st = Except.ok
      { scene := iterScene eng n st.scene
        registry := st.registry
        gui := st.gui ++ List.replicate n helloWidget
        events := st.events ++ (List.range n).flatMap
          (fun k => [Event.render (iterScene eng k st.scene),
                     Event.physicsStep demoDt]) } := by
  induction n generalizing st with
  | zero => simp [runLoop, iterScene]
  | succ m ih =>
      have hdt : ¬ (demoDt ≤ 0) := not_le.mpr demoDt_pos
      have hit : demoIteration eng st = Except.ok
          { scene := stepScene eng demoDt st.scene
            registry := st.registry
            gui := st.gui ++ [helloWidget]
            events := st.events ++ [Event.render st.scene,
                                    Event.physicsStep demoDt] } := by
        simp [demoIteration, step, hdt]
      have hrange : List.range (m + 1) = 0 :: (List.range m).map Nat.succ :=
        List.range_succ_eq_map m
      rw [runLoop]
      rw [hit]
      simp only [bind, Except.bind]
      rw [ih]
      simp only [hrange, List.flatMap_cons, List.flatMap_map, List.replicate_succ,
        List.append_assoc, List.cons_append, List.nil_append, List.singleton_append]
      simp [iterScene, Function.comp]

/-- Modelled from the spec: engine math that is external to this layer —
rotation of a vector by a rotation matrix (`ChMatrix33D * ChVectorD`), the
pseudo-random stream (`chrono.ChRandom()`, indexed by call number), and the
`ChBodyEasyConvexHullAuxRef` constructor which derives a body (mass, inertia,
pose, collision hull) from points and a density. -/
structure ExternalMath where
  rotMulVec : Rot → Vec3 → Vec3
  rand : Nat → ℚ
  easyHullBody : List Vec3 → ℚ → Body

/-- A trivial external-math instance used to instantiate theorems at a
concrete input. -/
def trivExt : ExternalMath :=
  ⟨fun _ v => v, fun _ => 0,
   fun _ _ => ⟨0, identFrame, false, 1, ⟨1, 1, 1⟩, false, []⟩⟩

def floor_mat : SurfaceMaterial := ⟨true⟩

def floor_ct_shape : CollisionShape := CollisionShape.box floor_mat 20 1 20

/-- The `floor` body: fixed, with a 20×1×20 collision box at (0,-1,0);
mass and inertia keep the engine defaults (1 and unit diagonal). -/
def floorBody : Body :=
  { id := 0, pose := identFrame, fixed := true, mass := 1
    inertiaXX := ⟨1, 1, 1⟩, collide := true
    collisionShapes := [(floor_ct_shape, ⟨⟨0, -1, 0⟩, Rot.qunit⟩)] }

/-- `boxfloor`: 20×1×20 visual box colored (0.2, 0.3, 1.0). -/
def boxfloor : VisualShape :=
  ⟨ShapeGeom.box 20 1 20, some ⟨2/10, 3/10, 1⟩, []⟩

/-- `pathfloor`: path shape with two segments and one arc (arc angles
−π/2..π/2 recorded as −90..90 degrees). -/
def pathfloor : VisualShape :=
  ⟨ShapeGeom.path
    [LineGeom.segment ⟨1, 2, 0⟩ ⟨1, 3, 0⟩,
     LineGeom.segment ⟨1, 3, 0⟩ ⟨2, 3, 0⟩,
     LineGeom.arc ⟨2, 7/2, 0⟩ (1/2) (-90) 90], none, []⟩

/-- `nurbs`: order-3 NURBS line through four control points. -/
def nurbs : NurbsLine := ⟨3, [⟨1, 2, -1⟩, ⟨1, 3, -1⟩, ⟨1, 3, -2⟩, ⟨1, 4, -2⟩]⟩

def nurbsasset : VisualShape := ⟨ShapeGeom.line nurbs, none, []⟩

/-- The Example-2 `body`: fixed, no collision (visualization tests only). -/
def bodyBody : Body :=
  { id := 1, pose := identFrame, fixed := true, mass := 1
    inertiaXX := ⟨1, 1, 1⟩, collide := false, collisionShapes := [] }

def orange_mat : VisualMaterial := ⟨⟨9/10, 4/10, 2/10⟩⟩

def sphereShape : VisualShape := ⟨ShapeGeom.sphere (1/2), none, [orange_mat]⟩

def boxShape : VisualShape := ⟨ShapeGeom.box (6/10) 1 (2/10), none, [orange_mat]⟩

def cylShape : VisualShape := ⟨ShapeGeom.cylinder (3/10) (7/10), none, []⟩

/-- `mesh`: one-triangle mesh with the orange material; attached three times. -/
def meshShape : VisualShape :=
  ⟨ShapeGeom.triangleMesh [(⟨0, 0, 0⟩, ⟨0, 1, 0⟩, ⟨1, 0, 0⟩)], none, [orange_mat]⟩

def objmesh : VisualShape :=
  ⟨ShapeGeom.modelFile "models/forklift/body.obj" "textures/bluewhite.png", none, []⟩

/-- `smallbox` number `j`: 0.2×0.2×0.02 box colored (j·0.05, 1−j·0.05, 0). -/
def smallbox (j : Nat) : VisualShape :=
  ⟨ShapeGeom.box (2/10) (2/10) (2/100),
   some ⟨(j : ℚ) * (5/100), 1 - (j : ℚ) * (5/100), 0⟩, []⟩

/-- Placement of `smallbox` number `j`:
`rot = Q_from_AngY(j*21°)`, `pos = rot * (0.4,0,0) + (0, j*0.02, 0)`. -/
def smallboxFrame (ext : ExternalMath) (j : Nat) : Frame :=
  ⟨Vec3.add (ext.rotMulVec (Rot.angY ((j : ℚ) * 21)) ⟨4/10, 0, 0⟩)
      ⟨0, (j : ℚ) * (2/100), 0⟩,
   Rot.angY ((j : ℚ) * 21)⟩

def particle_mat : SurfaceMaterial := ⟨true⟩

/-- The `particles` cluster: one shared sphere collision shape of radius
0.05, shared mass 0.1 and inertia (0.001,0.001,0.001), and 100 members whose
poses come from the pseudo-random stream:
`ChCoordsysD(ChVectorD(ChRandom() - 2, 1.5, ChRandom() + 2))`. -/
def demoParticles (rand : Nat → ℚ) : ParticleCloud :=
  { id := 2
    collisionShape := some (CollisionShape.sphere particle_mat (5/100))
    collide := true, mass := 1/10
    inertiaXX := ⟨1/1000, 1/1000, 1/1000⟩
    particles := (List.range 100).map
      (fun i => ⟨⟨rand (2*i) - 2, 3/2, rand (2*i+1) + 2⟩, Rot.qunit⟩) }

def sphereparticle : VisualShape := ⟨ShapeGeom.sphere (5/100), none, []⟩

/-- The six convex-hull points `v1..v6`, already displaced by (1,0,0). -/
def mpoints : List Vec3 :=
  [⟨9/5, 0, 0⟩, ⟨9/5, 3/10, 0⟩, ⟨9/5, 3/10, 3/10⟩,
   ⟨1, 3/10, 3/10⟩, ⟨1, 0, 3/10⟩, ⟨9/5, 0, 3/10⟩]

/-- `body.Move(v)`: translate the body's pose by `v`. -/
def moveBody (b : Body) (v : Vec3) : Body :=
  { b with pose := ⟨Vec3.add b.pose.pos v, b.pose.rot⟩ }

/-- The `hull` body: built by the engine from `mpoints` with density 1000,
given scene identifier 3, then moved by (2, 0.3, 0) before being added. -/
def hullBody (ext : ExternalMath) : Body :=
  moveBody { ext.easyHullBody mpoints 1000 with id := 3 } ⟨2, 3/10, 0⟩

/-- The demo's setup phase, translated statement-by-statement from the
source in program order: add `floor` and attach its three shapes, add `body`
and attach its 27 shapes (sphere, box, cylinder, the same mesh three times,
the model file, twenty small boxes), add `particles` and attach its sample
sphere, then add the moved `hull`. Everything happens before the loop. -/
def demoSetup (ext : ExternalMath) : Except SceneError (Scene × Registry) := do
  let s1 ← addEntity ⟨[]⟩ (Entity.body floorBody)
  let r1 ← attach s1 ⟨[]⟩ 0 boxfloor ⟨⟨0, -1, 0⟩, Rot.qunit⟩
  let r2 ← attach s1 r1 0 pathfloor identFrame
  let r3 ← attach s1 r2 0 nurbsasset identFrame
  let s2 ← addEntity s1 (Entity.body bodyBody)
  let r4 ← attach s2 r3 1 sphereShape ⟨⟨-1, 0, 0⟩, Rot.qunit⟩
  let r5 ← attach s2 r4 1 boxShape ⟨⟨1, 1, 0⟩, Rot.qunit⟩
  let r6 ← attach s2 r5 1 cylShape ⟨⟨2, 15/100, 0⟩, Rot.angX 90⟩
  let r7 ← attach s2 r6 1 meshShape ⟨⟨2, 0, 2⟩, Rot.qunit⟩
  let r8 ← attach s2 r7 1 meshShape ⟨⟨3, 0, 2⟩, Rot.qunit⟩
  let r9 ← attach s2 r8 1 meshShape ⟨⟨2, 1, 2⟩, Rot.qunit⟩
  let r10 ← attach s2 r9 1 objmesh ⟨⟨0, 0, 2⟩, Rot.qunit⟩
  let r11 ← (List.range 20).foldlM
    (fun r j => attach s2 r 1 (smallbox j) (smallboxFrame ext j)) r10
  let s3 ← addEntity s2 (Entity.cloud (demoParticles ext.rand))
  let r12 ← attach s3 r11 2 sphereparticle identFrame
  let s4 ← addEntity s3 (Entity.body (hullBody ext))
  pure (s4, r12)


/-- The scene produced by the setup phase: the four entities in insertion
order (floor, body, particles, hull). -/
def demoScene (ext : ExternalMath) : Scene :=
  ⟨[Entity.body floorBody, Entity.body bodyBody,
    Entity.cloud (demoParticles ext.rand), Entity.body (hullBody ext)]⟩

/-- The registry produced by the setup phase: floor's three shapes, body's
twenty-seven shapes, and the particle cluster's sample sphere, in insertion
order. -/
def demoRegistry (ext : ExternalMath) : Registry :=
  ⟨[⟨0, boxfloor, ⟨⟨0, -1, 0⟩, Rot.qunit⟩⟩,
    ⟨0, pathfloor, identFrame⟩,
    ⟨0, nurbsasset, identFrame⟩,
    ⟨1, sphereShape, ⟨⟨-1, 0, 0⟩, Rot.qunit⟩⟩,
    ⟨1, boxShape, ⟨⟨1, 1, 0⟩, Rot.qunit⟩⟩,
    ⟨1, cylShape, ⟨⟨2, 15/100, 0⟩, Rot.angX 90⟩⟩,
    ⟨1, meshShape, ⟨⟨2, 0, 2⟩, Rot.qunit⟩⟩,
    ⟨1, meshShape, ⟨⟨3, 0, 2⟩, Rot.qunit⟩⟩,
    ⟨1, meshShape, ⟨⟨2, 1, 2⟩, Rot.qunit⟩⟩,
    ⟨1, objmesh, ⟨⟨0, 0, 2⟩, Rot.qunit⟩⟩]
   ++ (List.range 20).map (fun j => ⟨1, smallbox j, smallboxFrame ext j⟩)
   ++ [⟨2, sphereparticle, identFrame⟩]⟩


/-- `addEntity` succeeds exactly by appending when the id is fresh. -/
theorem addEntity_ok (s : Scene) (e : Entity)
    (h : containsId s (entityId e) = false) :
    addEntity s e = Except.ok ⟨s.entities ++ [e]⟩ := by
  simp [addEntity, h]

/-- `attach` succeeds exactly by appending when the owner is in the scene. -/
theorem attach_ok (s : Scene) (r : Registry) (i : Nat) (sh : VisualShape)
    (f : Frame) (h : containsId s i = true) :
    attach s r i sh f = Except.ok ⟨r.attachments ++ [⟨i, sh, f⟩]⟩ := by
  simp [attach, h]

/-- Folding `attach` over a list of indices appends one attachment per
index, in order, when the owner is in the scene. -/
theorem foldlM_attach_ok (s : Scene) (i : Nat) (g : Nat → VisualShape)
    (fr : Nat → Frame) (h : containsId s i = true) :
    ∀ (l : List Nat) (r : Registry),
      l.foldlM (fun r j => attach s r i (g j) (fr j)) r =
        Except.ok ⟨r.attachments ++ l.map (fun j => ⟨i, g j, fr j⟩)⟩
  | [], r => by simp [pure, Except.pure]
  | j :: l, r => by
      rw [List.foldlM_cons, attach_ok s r i (g j) (fr j) h]
      simp only [bind, Except.bind]
      rw [foldlM_attach_ok s i g fr h l]
      simp

set_option maxHeartbeats 800000 in
/-- The setup phase always succeeds and produces exactly `demoScene` and
`demoRegistry`. -/
theorem demoSetup_ok (ext : ExternalMath) :
    demoSetup ext = Except.ok (demoScene ext, demoRegistry ext) := by
  rw [demoSetup]
  rw [addEntity_ok _ _ (by rfl)]
  simp only [bind, Except.bind]
  rw [attach_ok _ _ _ _ _ (by rfl)]
  simp only [bind, Except.bind]
  rw [attach_ok _ _ _ _ _ (by rfl)]
  simp only [bind, Except.bind]
  rw [attach_ok _ _ _ _ _ (by rfl)]
  simp only [bind, Except.bind]
  rw [addEntity_ok _ _ (by rfl)]
  simp only [bind, Except.bind]
  rw [attach_ok _ _ _ _ _ (by rfl)]
  simp only [bind, Except.bind]
  rw [attach_ok _ _ _ _ _ (by rfl)]
  simp only [bind, Except.bind]
  rw [attach_ok _ _ _ _ _ (by rfl)]
  simp only [bind, Except.bind]
  rw [attach_ok _ _ _ _ _ (by rfl)]
  simp only [bind, Except.bind]
  rw [attach_ok _ _ _ _ _ (by rfl)]
  simp only [bind, Except.bind]
  rw [attach_ok _ _ _ _ _ (by rfl)]
  simp only [bind, Except.bind]
  rw [attach_ok _ _ _ _ _ (by rfl)]
  simp only [bind, Except.bind]
  rw [foldlM_attach_ok _ _ _ _ (by rfl)]
  simp only [bind, Except.bind]
  rw [addEntity_ok _ _ (by rfl)]
  simp only [bind, Except.bind]
  rw [attach_ok _ _ _ _ _ (by rfl)]
  simp only [bind, Except.bind]
  rw [addEntity_ok _ _ (by rfl)]
  simp only [bind, Except.bind]
  simp [demoScene, demoRegistry, pure, Except.pure]

/-- One loop iteration always succeeds (the fixed timestep is positive) and
produces exactly: the stepped scene, the same registry, one more widget, and
the two trace events render-then-step. -/
theorem demoIteration_eq (eng : PhysicsEngine) (st : LoopState) :
    demoIteration eng st = Except.ok
      { scene := stepScene eng demoDt st.scene
        registry := st.registry
        gui := st.gui ++ [helloWidget]
        events := st.events ++ [Event.render st.scene,
                                Event.physicsStep demoDt] } := by
  simp [demoIteration, step, not_le.mpr demoDt_pos]

/-- C2: `step(dt)` fails with `InvalidTimestepError` for every `dt ≤ 0`;
for every `dt > 0` it succeeds (for any healthy engine) and the stepped
scene has the same number of entities. -/
theorem step_contract (eng : PhysicsEngine) (s : Scene) (dt : ℚ) :
    (dt ≤ 0 → step eng s dt = Except.error SceneError.InvalidTimestepError) ∧
    (0 < dt → step eng s dt = Except.ok (stepScene eng dt s) ∧
      (stepScene eng dt s).entities.length = s.entities.length) := by
  constructor
  · intro h
    simp [step, h]
  · intro h
    refine ⟨by simp [step, not_le.mpr h], ?_⟩
    simp [stepScene]

/-- Witness for `step_contract` at `dt = 0` and `dt = 1/100` on the
single-entity scene. -/
theorem step_contract_witness :
    step trivEngine ⟨[Entity.body floorBody]⟩ 0 =
      Except.error SceneError.InvalidTimestepError ∧
    step trivEngine ⟨[Entity.body floorBody]⟩ (1/100) =
      Except.ok (stepScene trivEngine (1/100) ⟨[Entity.body floorBody]⟩) ∧
    (stepScene trivEngine (1/100) ⟨[Entity.body floorBody]⟩).entities.length =
      (⟨[Entity.body floorBody]⟩ : Scene).entities.length :=
  ⟨(step_contract trivEngine ⟨[Entity.body floorBody]⟩ 0).1 (le_refl 0),
   ((step_contract trivEngine ⟨[Entity.body floorBody]⟩ (1/100)).2
      (by norm_num)).1,
   ((step_contract trivEngine ⟨[Entity.body floorBody]⟩ (1/100)).2
      (by norm_num)).2⟩

/-- C3: after `addEntity` succeeds for an entity, `attach` referencing that
entity succeeds; `attach` referencing any id not in the scene fails with
`DanglingEntityError`. -/
theorem attach_after_add (s : Scene) (e : Entity) (r : Registry)
    (sh : VisualShape) (f : Frame) :
    (∀ s1, addEntity s e = Except.ok s1 →
      attach s1 r (entityId e) sh f =
        Except.ok ⟨r.attachments ++ [⟨entityId e, sh, f⟩]⟩) ∧
    (∀ i, containsId s i = false →
      attach s r i sh f = Except.error SceneError.DanglingEntityError) := by
  constructor
  · intro s1 h
    by_cases hc : containsId s (entityId e)
    · simp [addEntity, hc] at h
    · have hcf : containsId s (entityId e) = false := by simpa using hc
      rw [addEntity, hcf] at h
      simp only [Bool.false_eq_true, if_false] at h
      have hs1 : s1 = ⟨s.entities ++ [e]⟩ := (Except.ok.inj h).symm
      subst hs1
      apply attach_ok
      simp [containsId, List.any_append]
  · intro i hi
    rw [attach, hi]
    simp

/-- Witness for `attach_after_add`: adding the floor to the empty scene then
attaching to id 0 succeeds; attaching to the absent id 5 fails. -/
theorem attach_after_add_witness :
    attach ⟨[Entity.body floorBody]⟩ ⟨[]⟩ 0 boxfloor identFrame =
      Except.ok ⟨[⟨0, boxfloor, identFrame⟩]⟩ ∧
    attach ⟨[]⟩ ⟨[]⟩ 5 boxfloor identFrame =
      Except.error SceneError.DanglingEntityError :=
  ⟨(attach_after_add ⟨[]⟩ (Entity.body floorBody) ⟨[]⟩ boxfloor identFrame).1
      ⟨[Entity.body floorBody]⟩ rfl,
   (attach_after_add ⟨[]⟩ (Entity.body floorBody) ⟨[]⟩ boxfloor identFrame).2
      5 rfl⟩

/-- C4: attaching shapes S1, S2, S3 to the same entity in that order makes
the registry's iteration order of that entity's attachments exactly the
insertion order [S1, S2, S3] after whatever was there before. -/
theorem attachment_order (s : Scene) (r r1 r2 r3 : Registry) (i : Nat)
    (S1 S2 S3 : VisualShape) (f1 f2 f3 : Frame)
    (h1 : attach s r i S1 f1 = Except.ok r1)
    (h2 : attach s r1 i S2 f2 = Except.ok r2)
    (h3 : attach s r2 i S3 f3 = Except.ok r3) :
    attachmentsOf r3 i =
      attachmentsOf r i ++ [(S1, f1), (S2, f2), (S3, f3)] := by
  by_cases hc : containsId s i
  · rw [attach_ok s r i S1 f1 hc] at h1
    have e1 := (Except.ok.inj h1).symm
    subst e1
    rw [attach_ok s _ i S2 f2 hc] at h2
    have e2 := (Except.ok.inj h2).symm
    subst e2
    rw [attach_ok s _ i S3 f3 hc] at h3
    have e3 := (Except.ok.inj h3).symm
    subst e3
    simp [attachmentsOf, List.filter_append, List.map_append]
  · have hcf : containsId s i = false := by simpa using hc
    rw [attach, hcf] at h1
    simp at h1

/-- Witness for `attachment_order`: three shapes attached to the floor in
the singleton scene. -/
theorem attachment_order_witness :
    attachmentsOf ⟨[⟨0, sphereShape, identFrame⟩, ⟨0, boxShape, identFrame⟩,
        ⟨0, cylShape, identFrame⟩]⟩ 0 =
      attachmentsOf ⟨[]⟩ 0 ++ [(sphereShape, identFrame),
        (boxShape, identFrame), (cylShape, identFrame)] :=
  attachment_order ⟨[Entity.body floorBody]⟩ ⟨[]⟩ _ _ _ 0
    sphereShape boxShape cylShape identFrame identFrame identFrame
    rfl rfl rfl

/-- C6: a visual shape descriptor is immutable once attached: `attach` only
appends a new record, leaving every existing attachment (hence every
attachment sharing a shape value) exactly as it was, and a loop iteration
never modifies the registry at all. -/
theorem shapes_immutable (s : Scene) (r r1 : Registry) (i : Nat)
    (sh : VisualShape) (f : Frame) (eng : PhysicsEngine)
    (st st1 : LoopState) :
    (attach s r i sh f = Except.ok r1 →
      r1.attachments = r.attachments ++ [⟨i, sh, f⟩]) ∧
    (demoIteration eng st = Except.ok st1 → st1.registry = st.registry) := by
  constructor
  · intro h
    by_cases hc : containsId s i
    · rw [attach_ok s r i sh f hc] at h
      rw [← Except.ok.inj h]
    · have hcf : containsId s i = false := by simpa using hc
      rw [attach, hcf] at h
      simp at h
  · intro h
    rw [demoIteration_eq] at h
    rw [← Except.ok.inj h]

/-- Witness for `shapes_immutable`: one concrete attach and one concrete
loop iteration from the initial loop state. -/
theorem shapes_immutable_witness :
    (⟨[⟨0, boxfloor, identFrame⟩]⟩ : Registry).attachments =
      (⟨[]⟩ : Registry).attachments ++ [⟨0, boxfloor, identFrame⟩] ∧
    (⟨⟨[]⟩, ⟨[]⟩, [helloWidget],
        [Event.render ⟨[]⟩, Event.physicsStep demoDt]⟩ : LoopState).registry =
      (initState ⟨[]⟩ ⟨[]⟩).registry :=
  ⟨(shapes_immutable ⟨[Entity.body floorBody]⟩ ⟨[]⟩ ⟨[⟨0, boxfloor, identFrame⟩]⟩
      0 boxfloor identFrame trivEngine (initState ⟨[]⟩ ⟨[]⟩)
      (initState ⟨[]⟩ ⟨[]⟩)).1 rfl,
   (shapes_immutable ⟨[Entity.body floorBody]⟩ ⟨[]⟩ ⟨[]⟩
      0 boxfloor identFrame trivEngine (initState ⟨[]⟩ ⟨[]⟩)
      ⟨⟨[]⟩, ⟨[]⟩, [helloWidget],
        [Event.render ⟨[]⟩, Event.physicsStep demoDt]⟩).2
      (demoIteration_eq trivEngine (initState ⟨[]⟩ ⟨[]⟩))⟩

/-- The scene a render event observed, if the event is a render. -/
def observedScene : Event → Option Scene
  | Event.render sc => some sc
  | Event.physicsStep _ => none

/-- Counting and projection facts about the loop's event trace: `n`
iterations contain `n` renders and `n` steps, the `k`-th render observes the
scene after `k` completed steps, and the steps all carry the fixed
timestep. -/
theorem trace_facts (eng : PhysicsEngine) (s : Scene) (n : Nat) :
    (((List.range n).flatMap (fun k => [Event.render (iterScene eng k s),
        Event.physicsStep demoDt])).countP isRenderEv = n) ∧
    (((List.range n).flatMap (fun k => [Event.render (iterScene eng k s),
        Event.physicsStep demoDt])).countP isStepEv = n) ∧
    (((List.range n).flatMap (fun k => [Event.render (iterScene eng k s),
        Event.physicsStep demoDt])).filterMap observedScene =
      (List.range n).map (fun k => iterScene eng k s)) ∧
    (((List.range n).flatMap (fun k => [Event.render (iterScene eng k s),
        Event.physicsStep demoDt])).filter isStepEv =
      List.replicate n (Event.physicsStep demoDt)) := by
  induction n with
  | zero => simp
  | succ m ih =>
      rw [List.range_succ]
      simp [List.flatMap_append, List.countP_append, List.filterMap_append,
        List.filter_append, List.replicate_succ', ih.1, ih.2.1, ih.2.2.1,
        ih.2.2.2, isRenderEv, isStepEv, observedScene]

/-- C1: for every completed run of `n` loop iterations the loop succeeds,
the trace holds exactly `n` renders and `n` physics steps, render call
`k + 1` observes the scene produced by the first `k` steps (the initial
scene for `k = 0`), and the whole trace is the strict alternation
render-then-step in iteration order: no frame skipped, no step out of
order. -/
theorem render_before_step (eng : PhysicsEngine) (s : Scene) (r : Registry)
    (n : Nat) :
    ∃ st, runLoop eng n (initState s r) = Except.ok st ∧
      st.events.countP isRenderEv = n ∧
      st.events.countP isStepEv = n ∧
      st.events.filterMap observedScene =
        (List.range n).map (fun k => iterScene eng k s) ∧
      st.events = (List.range n).flatMap
        (fun k => [Event.render (iterScene eng k s),
                   Event.physicsStep demoDt]) := by
  refine ⟨_, runLoop_eq eng n (initState s r), ?_, ?_, ?_, ?_⟩ <;>
    simp [initState, (trace_facts eng s n).1, (trace_facts eng s n).2.1,
      (trace_facts eng s n).2.2.1]

/-- C9: the loop's only timestep is the constant `demoDt = 0.01 > 0`, so
the invalid-timestep failure is unreachable: every run of `n` iterations
succeeds and every physics-step event in its trace carries `demoDt`. -/
theorem timestep_safe (eng : PhysicsEngine) (s : Scene) (r : Registry)
    (n : Nat) :
    demoDt = 1/100 ∧ (0 : ℚ) < demoDt ∧
    ∃ st, runLoop eng n (initState s r) = Except.ok st ∧
      st.events.filter isStepEv =
        List.replicate n (Event.physicsStep demoDt) := by
  refine ⟨rfl, demoDt_pos, _, runLoop_eq eng n (initState s r), ?_⟩
  simp [initState, (trace_facts eng s n).2.2.2]

/-- C10: each loop iteration adds exactly one new static text widget to the
GUI environment, and after `n` completed iterations exactly `n` such widgets
have accumulated. -/
theorem gui_accumulates (eng : PhysicsEngine) (s : Scene) (r : Registry)
    (n : Nat) :
    (∀ st, ∃ st1, demoIteration eng st = Except.ok st1 ∧
      st1.gui = st.gui ++ [helloWidget]) ∧
    ∃ st, runLoop eng n (initState s r) = Except.ok st ∧
      st.gui = List.replicate n helloWidget ∧ st.gui.length = n := by
  refine ⟨fun st => ⟨_, demoIteration_eq eng st, rfl⟩,
    _, runLoop_eq eng n (initState s r), ?_, ?_⟩ <;>
    simp [initState]

/-- The single fixed entity of the spec's end-to-end scenario: fixed, at
the origin. -/
def scenarioBody : Body :=
  { id := 0, pose := identFrame, fixed := true, mass := 1
    inertiaXX := ⟨1, 1, 1⟩, collide := false, collisionShapes := [] }

/-- The (1,1,1) box visual shape of the end-to-end scenario. -/
def scenarioBox : VisualShape := ⟨ShapeGeom.box 1 1 1, none, []⟩

/-- C5: adding one fixed entity carrying a box visual shape and running 5
loop iterations at the fixed timestep 0.01 yields exactly 5 renders, leaves
the fixed entity's pose (indeed the whole scene) unchanged, and raises no
error at any step. -/
theorem end_to_end (eng : PhysicsEngine) :
    ∃ s1 r1 st,
      addEntity ⟨[]⟩ (Entity.body scenarioBody) = Except.ok s1 ∧
      attach s1 ⟨[]⟩ 0 scenarioBox identFrame = Except.ok r1 ∧
      demoDt = 1/100 ∧
      runLoop eng 5 (initState s1 r1) = Except.ok st ∧
      st.events.countP isRenderEv = 5 ∧
      st.scene = s1 ∧
      st.scene = ⟨[Entity.body scenarioBody]⟩ := by
  refine ⟨⟨[Entity.body scenarioBody]⟩, ⟨[⟨0, scenarioBox, identFrame⟩]⟩, _,
    rfl, rfl, rfl, runLoop_eq eng 5 _, ?_, ?_, ?_⟩ <;> rfl

/-- C7: the demo's particle cluster carries exactly one collision-shape
template, one visual-shape template (the sample sphere, the cluster's only
registry attachment), and one mass/inertia value, shared by all 100 members;
members differ only by their construction-time pose drawn from the random
stream, and a physics step changes nothing of a cluster but its member
poses. -/
theorem particle_cluster (ext : ExternalMath) (eng : PhysicsEngine)
    (dt : ℚ) :
    demoSetup ext = Except.ok (demoScene ext, demoRegistry ext) ∧
    (demoScene ext).entities[2]? =
      some (Entity.cloud (demoParticles ext.rand)) ∧
    (demoParticles ext.rand).collisionShape =
      some (CollisionShape.sphere particle_mat (5/100)) ∧
    (demoParticles ext.rand).mass = 1/10 ∧
    (demoParticles ext.rand).inertiaXX = ⟨1/1000, 1/1000, 1/1000⟩ ∧
    (demoParticles ext.rand).particles = (List.range 100).map
      (fun i => ⟨⟨ext.rand (2*i) - 2, 3/2, ext.rand (2*i+1) + 2⟩,
        Rot.qunit⟩) ∧
    attachmentsOf (demoRegistry ext) 2 = [(sphereparticle, identFrame)] ∧
    (∀ c : ParticleCloud, stepEntity eng dt (Entity.cloud c) =
      Entity.cloud
        { c with particles := c.particles.map (eng.advanceParticle dt) }) := by
  refine ⟨demoSetup_ok ext, rfl, rfl, rfl, rfl, rfl, ?_, fun c => rfl⟩
  simp [demoRegistry, attachmentsOf, List.filter_append, sphereparticle,
    identFrame, List.filter_map]

/-- C8: the whole setup happens before the loop — the setup phase alone
already yields all four entities, in creation order — and during the loop
the demo logic itself never mutates the scene or the registry: one
iteration changes the scene exactly by the physics step (which preserves
each entity's identity and fixed flag, mutating pose data only) and leaves
the registry untouched. -/
theorem setup_before_loop (ext : ExternalMath) (eng : PhysicsEngine) :
    demoSetup ext = Except.ok (demoScene ext, demoRegistry ext) ∧
    (demoScene ext).entities.map entityId = [0, 1, 2, 3] ∧
    (∀ st, ∃ st1, demoIteration eng st = Except.ok st1 ∧
      st1.scene = stepScene eng demoDt st.scene ∧
      st1.registry = st.registry) ∧
    (∀ dt e, entityId (stepEntity eng dt e) = entityId e ∧
      entityFixed (stepEntity eng dt e) = entityFixed e) ∧
    (∀ dt s, (stepScene eng dt s).entities.map entityId =
      s.entities.map entityId) := by
  refine ⟨demoSetup_ok ext, rfl,
    fun st => ⟨_, demoIteration_eq eng st, rfl, rfl⟩, ?_, ?_⟩
  · intro dt e
    cases e with
    | body b =>
        by_cases hb : b.fixed <;> simp [stepEntity, entityId, entityFixed, hb]
    | cloud c => simp [stepEntity, entityId, entityFixed]
  · intro dt s
    simp only [stepScene, List.map_map]
    apply List.map_congr_left
    intro e _
    cases e with
    | body b =>
        by_cases hb : b.fixed <;> simp [stepEntity, entityId, hb]
    | cloud c => simp [stepEntity, entityId]
